import Mathlib

/-
Verification development for the jsonref library (src/jsonref.py).

The file embeds, as executable Lean definitions, the parts of the source
that the claims talk about:
  - the tokenization and walking loop of Dereferencer.resolve_pointer,
  - the _URIDict store with its urlsplit-geturl key normalization,
  - Dereferencer.dereference and Dereferencer.remote (the remote fetch is
    modelled as an oracle `web : String -> Option JSON`, none meaning the
    HTTP request or the JSON decoding of its body fails),
  - the lazy RefObject proxy and its `dereferencing` observation wrapper,
  - the loaders: the json object hook `_as_ref_object` (applied bottom-up
    by json.load/json.loads) and the tree walker `loadp`.

The functions `urlsplit`, `urlunsplit`, `urlparse`, `urlunparse`,
`urldefrag`, `urljoin`, `unquote` and the str methods replace / lstrip /
split are external Python standard library collaborators; they are
modelled here after CPython urllib.parse, restricted to ASCII text (the
percent decoder decodes single %XX escapes byte-wise; the multi-byte UTF-8
recombination of CPython is out of scope, no claim exercises it).
Python exceptions are modelled with `Except PyError`.  All string work is
done on `List Char` with structural recursion so that every definition
evaluates inside the kernel.
-/

namespace Jsonref

/-! ## Generic string and list helpers (models of Python str operations) -/

/-- `leadsWith pat s` is true when the char list `pat` is an initial run of `s`
(the check `str.startswith` does at one position). -/
def leadsWith : List Char → List Char → Bool
  | [], _ => true
  | _ :: _, [] => false
  | a :: as, b :: bs => a = b && leadsWith as bs

/-- Fuelled worker for `replaceList`; the fuel is an upper bound on the input
length, so the branch returning `s` at fuel 0 is never taken in practice. -/
def replaceListF (pat rep : List Char) : Nat → List Char → List Char
  | _, [] => []
  | 0, s => s
  | fuel + 1, c :: rest =>
    match pat with
    | [] => c :: replaceListF pat rep fuel rest
    | p :: ps =>
      if leadsWith (p :: ps) (c :: rest) then
        rep ++ replaceListF pat rep fuel (rest.drop ps.length)
      else
        c :: replaceListF pat rep fuel rest

/-- Model of Python `s.replace(pat, rep)`: replace every non-overlapping
occurrence of `pat`, scanning left to right.  (jsonref only calls it with the
non-empty patterns "~1" and "~0".) -/
def replaceStr (s pat rep : String) : String :=
  ⟨replaceListF pat.data rep.data s.data.length s.data⟩

/-- Value of an ASCII hex digit, as accepted by the percent decoder. -/
def hexVal (c : Char) : Option Nat :=
  if c.isDigit then some (c.toNat - 48)
  else if 65 ≤ c.toNat ∧ c.toNat ≤ 70 then some (c.toNat - 55)
  else if 97 ≤ c.toNat ∧ c.toNat ≤ 102 then some (c.toNat - 87)
  else none

/-- Model of `urllib.parse.unquote` on ASCII data: each `%XX` with two hex
digits becomes the character with code `XX`; malformed escapes stay as-is. -/
def unquoteList : List Char → List Char
  | '%' :: a :: b :: rest =>
    (match hexVal a, hexVal b with
     | some x, some y => Char.ofNat (16 * x + y) :: unquoteList rest
     | _, _ => '%' :: unquoteList (a :: b :: rest))
  | c :: rest => c :: unquoteList rest
  | [] => []

/-- String form of `unquoteList`: Python `unquote(s)`. -/
def unquote (s : String) : String := ⟨unquoteList s.data⟩

/-- Model of Python `s.lstrip("/")`: drop every leading slash. -/
def lstripSlash (s : String) : String := ⟨s.data.dropWhile (fun c => c = '/')⟩

/-- Model of Python `needle in hay` for strings: substring containment. -/
def strContainsSub (hay needle : String) : Bool :=
  (List.range (hay.data.length + 1)).any fun i => leadsWith needle.data (hay.data.drop i)

/-- Kernel-friendly `s.isEmpty`. -/
def strIsEmpty (s : String) : Bool := s.data.isEmpty

/-- Kernel-friendly `s.startsWith p`. -/
def strStartsWith (s p : String) : Bool := leadsWith p.data s.data

/-- Kernel-friendly `s.toLower` (ASCII, as CPython lowercases schemes). -/
def strToLower (s : String) : String := ⟨s.data.map Char.toLower⟩

/-- Split on every occurrence of the character `c`; models Python
`s.split(c)` for a one-character separator (and Lean `String.splitOn`). -/
def splitOnCharList (c : Char) : List Char → List (List Char)
  | [] => [[]]
  | a :: rest =>
    let r := splitOnCharList c rest
    if a = c then [] :: r
    else
      match r with
      | [] => [[a]]
      | h :: t => (a :: h) :: t

/-- String form of `splitOnCharList`. -/
def splitOnChar (s : String) (c : Char) : List String :=
  (splitOnCharList c s.data).map (fun l => ⟨l⟩)

/-- Model of Python `sep.join(parts)` for a one-character separator. -/
def joinWithChar (c : Char) : List String → String
  | [] => ""
  | [x] => x
  | x :: y :: rest => x ++ String.singleton c ++ joinWithChar c (y :: rest)

/-- Split a string at the first occurrence of `c` (the char excluded), or
`none` when `c` does not occur: Python `s.split(c, 1)` when `c in s`. -/
def splitAtFirst (s : String) (c : Char) : Option (String × String) :=
  match s.data.findIdx? (fun x => x = c) with
  | some i => some (⟨s.data.take i⟩, ⟨s.data.drop (i + 1)⟩)
  | none => none

/-- Index of the last occurrence of `c` in `s`: Python `s.rfind(c)`. -/
def lastIdxOf (s : String) (c : Char) : Option Nat :=
  (s.data.reverse.findIdx? (fun x => x = c)).map (fun i => s.data.length - 1 - i)

/-! ## Model of urllib.parse (external collaborator of src/jsonref.py) -/

/-- Result of `urlsplit`: the five structural URI components. -/
structure SplitResult where
  scheme : String
  netloc : String
  path : String
  query : String
  fragment : String
deriving DecidableEq

/-- Characters CPython allows inside a URI scheme. -/
def schemeChar (c : Char) : Bool :=
  c.isAlpha || c.isDigit || c = '+' || c = '-' || c = '.'

/-- CPython `_splitnetloc`: `url` starts with "//"; the netloc runs to the
first of "/", "?", "#". -/
def pySplitNetloc (url : String) : String × String :=
  let rest := url.data.drop 2
  let i := (rest.findIdx? (fun c => c = '/' || c = '?' || c = '#')).getD rest.length
  (⟨rest.take i⟩, ⟨rest.drop i⟩)

/-- Model of CPython `urllib.parse.urlsplit(url, scheme=defaultScheme)`. -/
def urlsplit (url defaultScheme : String) : SplitResult :=
  let sr :=
    match splitAtFirst url ':' with
    | some (before, after) =>
      if !before.data.isEmpty && ((before.data.head?.map Char.isAlpha).getD false)
          && before.data.all schemeChar then
        (strToLower before, after)
      else (defaultScheme, url)
    | none => (defaultScheme, url)
  let scheme := sr.1
  let rest := sr.2
  let nl := if strStartsWith rest "//" then pySplitNetloc rest else ("", rest)
  let fr :=
    match splitAtFirst nl.2 '#' with
    | some p => p
    | none => (nl.2, "")
  let pq :=
    match splitAtFirst fr.1 '?' with
    | some p => p
    | none => (fr.1, "")
  ⟨scheme, nl.1, pq.1, pq.2, fr.2⟩

/-- Model of CPython `urllib.parse.urlunsplit`, which is also what
`SplitResult.geturl` calls. -/
def urlunsplit (r : SplitResult) : String :=
  let url0 := r.path
  let url1 :=
    if !strIsEmpty r.netloc || (!strIsEmpty url0 && strStartsWith url0 "//") then
      "//" ++ r.netloc ++
        (if !strIsEmpty url0 && !strStartsWith url0 "/" then "/" ++ url0 else url0)
    else url0
  let url2 := if !strIsEmpty r.scheme then r.scheme ++ ":" ++ url1 else url1
  let url3 := if !strIsEmpty r.query then url2 ++ "?" ++ r.query else url2
  if !strIsEmpty r.fragment then url3 ++ "#" ++ r.fragment else url3

/-- `_URIDict.normalize` from src/jsonref.py: `urlparse.urlsplit(uri).geturl()`. -/
def normalize (uri : String) : String := urlunsplit (urlsplit uri "")

/-- Schemes for which CPython urljoin allows relative joining. -/
def uses_relative : List String :=
  ["", "ftp", "http", "gopher", "nntp", "imap", "wais", "file", "https", "shttp",
   "mms", "prospero", "rtsp", "rtspu", "sftp", "svn", "svn+ssh", "ws", "wss"]

/-- Schemes for which CPython treats "//" as introducing a netloc. -/
def uses_netloc : List String :=
  ["", "ftp", "http", "gopher", "nntp", "telnet", "imap", "wais", "file", "mms",
   "https", "shttp", "snews", "prospero", "rtsp", "rtspu", "rsync", "svn",
   "svn+ssh", "sftp", "nfs", "git", "git+ssh", "ws", "wss"]

/-- Schemes for which CPython urlparse splits `;params` off the path. -/
def uses_params : List String :=
  ["", "ftp", "hdl", "prospero", "http", "imap", "https", "shttp", "rtsp",
   "rtspu", "sip", "sips", "mms", "sftp", "tel"]

/-- CPython `_splitparams`: split `;params` following the last path segment. -/
def pySplitParams (url : String) : String × String :=
  let iOpt : Option Nat :=
    if url.data.contains '/' then
      match lastIdxOf url '/' with
      | some r => ((url.data.drop r).findIdx? (fun x => x = ';')).map (fun i => i + r)
      | none => url.data.findIdx? (fun x => x = ';')
    else url.data.findIdx? (fun x => x = ';')
  match iOpt with
  | some i => (⟨url.data.take i⟩, ⟨url.data.drop (i + 1)⟩)
  | none => (url, "")

/-- Result of `urlparse`: `urlsplit` components plus params. -/
structure ParseResult where
  scheme : String
  netloc : String
  path : String
  params : String
  query : String
  fragment : String
deriving DecidableEq

/-- Model of CPython `urllib.parse.urlparse(url, scheme=defaultScheme)`. -/
def urlparse (url defaultScheme : String) : ParseResult :=
  let s := urlsplit url defaultScheme
  if uses_params.contains s.scheme && s.path.data.contains ';' then
    let pp := pySplitParams s.path
    ⟨s.scheme, s.netloc, pp.1, pp.2, s.query, s.fragment⟩
  else ⟨s.scheme, s.netloc, s.path, "", s.query, s.fragment⟩

/-- Model of CPython `urllib.parse.urlunparse`. -/
def urlunparse (r : ParseResult) : String :=
  let url := if !strIsEmpty r.params then r.path ++ ";" ++ r.params else r.path
  urlunsplit ⟨r.scheme, r.netloc, url, r.query, r.fragment⟩

/-- Model of CPython `urllib.parse.urldefrag`: split off the fragment and
reassemble the rest. -/
def urldefrag (url : String) : String × String :=
  if url.data.contains '#' then
    let p := urlparse url ""
    (urlunparse ⟨p.scheme, p.netloc, p.path, p.params, p.query, ""⟩, p.fragment)
  else (url, "")

/-- CPython urljoin helper: `segments[1:-1] = filter(None, segments[1:-1])`. -/
def filterMiddle (l : List String) : List String :=
  match l with
  | [] => []
  | [a] => [a]
  | a :: rest =>
    a :: (rest.dropLast.filter (fun s => !strIsEmpty s) ++ [(rest.getLast?).getD ""])

/-- CPython urljoin segment loop: ".." pops (ignoring pops of an empty stack),
"." is skipped, everything else is appended. -/
def resolveSegs : List String → List String → List String
  | acc, [] => acc
  | acc, s :: rest =>
    if s = ".." then resolveSegs acc.dropLast rest
    else if s = "." then resolveSegs acc rest
    else resolveSegs (acc ++ [s]) rest

/-- Model of CPython `urllib.parse.urljoin(base, url)`. -/
def urljoin (base url : String) : String :=
  if base = "" then url
  else if url = "" then base
  else
    let b := urlparse base ""
    let u := urlparse url b.scheme
    if u.scheme ≠ b.scheme ∨ uses_relative.contains u.scheme = false then url
    else if uses_netloc.contains u.scheme && !strIsEmpty u.netloc then
      urlunparse ⟨u.scheme, u.netloc, u.path, u.params, u.query, u.fragment⟩
    else
      let netloc := if uses_netloc.contains u.scheme then b.netloc else u.netloc
      if strIsEmpty u.path && strIsEmpty u.params then
        let query := if strIsEmpty u.query then b.query else u.query
        urlunparse ⟨u.scheme, netloc, b.path, b.params, query, u.fragment⟩
      else
        let baseParts0 := splitOnChar b.path '/'
        let baseParts :=
          if (baseParts0.getLast?).getD "" ≠ "" then baseParts0.dropLast else baseParts0
        let segments :=
          if strStartsWith u.path "/" then splitOnChar u.path '/'
          else filterMiddle (baseParts ++ splitOnChar u.path '/')
        let resolved0 := resolveSegs [] segments
        let lastSeg := (segments.getLast?).getD ""
        let resolved := if lastSeg = "." ∨ lastSeg = ".." then resolved0 ++ [""] else resolved0
        let joined := joinWithChar '/' resolved
        let path := if joined = "" then "/" else joined
        urlunparse ⟨u.scheme, netloc, path, u.params, u.query, u.fragment⟩

/-! ## JSON values and Python exceptions -/

/-- A parsed JSON document, as the external json parser hands it to jsonref
(Python dicts are modelled as association lists in insertion order with
distinct keys). -/
inductive JSON where
  | null
  | bool (b : Bool)
  | num (n : Int)
  | str (s : String)
  | arr (xs : List JSON)
  | obj (kvs : List (String × JSON))

/-- The Python exceptions the embedded code can raise.  `lookupError` is the
`LookupError` raised by resolve_pointer; `typeError` models the TypeError
Python raises when `in` or indexing is applied to an unsupported type;
`fetchError` models a failing `requests.get(uri).json()`. -/
inductive PyError where
  | lookupError (msg : String)
  | typeError (msg : String)
  | fetchError (uri : String)
deriving DecidableEq

/-- Single quote character, used by the `%r` formatting of error messages. -/
def sq : String := String.singleton (Char.ofNat 39)

/-- Python `repr` of a simple string, as `%r` renders the pointer. -/
def pyRepr (s : String) : String := sq ++ s ++ sq

/-- First value bound to key `k`, as Python dict lookup on our assoc lists. -/
def assocLookup {α : Type} (kvs : List (String × α)) (k : String) : Option α :=
  match kvs with
  | [] => none
  | (k2, v) :: rest => if k2 = k then some v else assocLookup rest k

/-- Python `d[k] = v` on a dict: replace in place if present, else append. -/
def assocSet {α : Type} (kvs : List (String × α)) (k : String) (v : α) :
    List (String × α) :=
  match kvs with
  | [] => [(k, v)]
  | (k2, w) :: rest => if k2 = k then (k2, v) :: rest else (k2, w) :: assocSet rest k v

/-! ## Dereferencer.resolve_pointer (src/jsonref.py lines 86-107) -/

/-- Per-token unescaping done inside the loop of resolve_pointer:
`part.replace("~1", "/").replace("~0", "~")`. -/
def unescapeToken (t : String) : String :=
  replaceStr (replaceStr t "~1" "/") "~0" "~"

/-- The token list of resolve_pointer:
`unquote(pointer.lstrip("/")).split("/") if pointer else []`. -/
def pointerTokens (pointer : String) : List String :=
  if pointer = "" then [] else splitOnChar (unquote (lstripSlash pointer)) '/'

/-- The message of the LookupError resolve_pointer raises:
`"Unresolvable JSON pointer: %r" % pointer`. -/
def unresolvableMsg (pointer : String) : String :=
  "Unresolvable JSON pointer: " ++ pyRepr pointer

/-- Python `part in document` for each JSON shape: key membership for dicts,
element membership for lists, substring test for strings, TypeError for
null / bool / number (not iterable, not a container). -/
def pyContains (doc : JSON) (part : String) : Except PyError Bool :=
  match doc with
  | .obj kvs => .ok ((assocLookup kvs part).isSome)
  | .arr xs => .ok (xs.any fun v => match v with | .str t => t = part | _ => false)
  | .str s => .ok (strContainsSub s part)
  | .num _ => .error (.typeError "argument of type int is not iterable")
  | .bool _ => .error (.typeError "argument of type bool is not iterable")
  | .null => .error (.typeError "argument of type NoneType is not iterable")

/-- Python `document[part]` with a string subscript, reached only after the
membership test succeeded: dict lookup succeeds; lists and strings reject a
string index with TypeError; scalars are not subscriptable. -/
def pyIndex (doc : JSON) (part : String) : Except PyError JSON :=
  match doc with
  | .obj kvs =>
    (match assocLookup kvs part with
     | some v => .ok v
     | none => .error (.lookupError "key vanished"))
  | .arr _ => .error (.typeError "list indices must be integers, not str")
  | .str _ => .error (.typeError "string indices must be integers")
  | .num _ => .error (.typeError "int object is not subscriptable")
  | .bool _ => .error (.typeError "bool object is not subscriptable")
  | .null => .error (.typeError "NoneType object is not subscriptable")

/-- One iteration of the resolve_pointer loop on token `part0`: unescape the
token, test membership, raise the LookupError carrying the full pointer when
absent, else subscript. -/
def pointerStep (pointer : String) (doc : JSON) (part0 : String) : Except PyError JSON :=
  let part := unescapeToken part0
  match pyContains doc part with
  | .error e => .error e
  | .ok false => .error (.lookupError (unresolvableMsg pointer))
  | .ok true => pyIndex doc part

/-- The loop of resolve_pointer over the token list. -/
def resolveTokens (pointer : String) (doc : JSON) : List String → Except PyError JSON
  | [] => .ok doc
  | t :: rest =>
    match pointerStep pointer doc t with
    | .ok d => resolveTokens pointer d rest
    | .error e => .error e

/-- `Dereferencer.resolve_pointer(document, pointer)` from src/jsonref.py. -/
def resolve_pointer (document : JSON) (pointer : String) : Except PyError JSON :=
  resolveTokens pointer document (pointerTokens pointer)

/-- Tokenization as the specification words it (claim C6): percent-decode the
fragment, strip a single leading slash, split on "/". -/
def stripSingleLeadingSlash (s : String) : String :=
  if strStartsWith s "/" then ⟨s.data.drop 1⟩ else s

/-- Spec-worded tokenizer, to compare with `pointerTokens` (claim C6). -/
def specTokenize (pointer : String) : List String :=
  if pointer = "" then [] else splitOnChar (stripSingleLeadingSlash (unquote pointer)) '/'

/-! ## _URIDict and Dereferencer (src/jsonref.py lines 36-84) -/

/-- `_URIDict.__getitem__`: look the normalized key up in the inner dict. -/
def uridictGet (store : List (String × JSON)) (uri : String) : Option JSON :=
  assocLookup store (normalize uri)

/-- `_URIDict.__setitem__`: write under the normalized key. -/
def uridictSet (store : List (String × JSON)) (uri : String) (v : JSON) :
    List (String × JSON) :=
  assocSet store (normalize uri) v

/-- `uri in store`: MutableMapping.__contains__ goes through __getitem__,
hence also normalizes. -/
def uridictContains (store : List (String × JSON)) (uri : String) : Bool :=
  (uridictGet store uri).isSome

/-- A Dereferencer is its `_URIDict` store (the fetch capability is passed
separately as an oracle). -/
structure Dereferencer where
  store : List (String × JSON)

/-- `Dereferencer.__init__(store)`: `_URIDict.__init__` copies the seed pairs
into the raw inner dict with `self.store.update(...)`, WITHOUT normalizing
the keys (only later getitem / setitem calls normalize). -/
def Dereferencer.init (pairs : List (String × JSON)) : Dereferencer :=
  ⟨pairs.foldl (fun st kv => assocSet st kv.1 kv.2) []⟩

/-- `Dereferencer.remote(uri)`: fetch, then store under the normalized uri.
Returns the result, the new state, and the list of fetch attempts made.  If
the fetch raises, the store is unchanged (the assignment is never reached). -/
def Dereferencer.remote (web : String → Option JSON) (d : Dereferencer)
    (uri : String) : Except PyError JSON × Dereferencer × List String :=
  match web uri with
  | some doc => (.ok doc, ⟨uridictSet d.store uri doc⟩, [uri])
  | none => (.error (.fetchError uri), d, [uri])

/-- `Dereferencer.dereference(full_uri)`: defrag, use the cached document when
the base uri is in the store, otherwise fetch remotely; then resolve the
fragment pointer.  Also returns the new state and the fetch attempts. -/
def Dereferencer.dereference (web : String → Option JSON) (d : Dereferencer)
    (full_uri : String) : Except PyError JSON × Dereferencer × List String :=
  let bf := urldefrag full_uri
  match uridictGet d.store bf.1 with
  | some doc => (resolve_pointer doc bf.2, d, [])
  | none =>
    match Dereferencer.remote web d bf.1 with
    | (.ok doc, d2, fs) => (resolve_pointer doc bf.2, d2, fs)
    | (.error e, d2, fs) => (.error e, d2, fs)

/-! ## RefObject, the lazy proxy (src/jsonref.py lines 112-143) -/

/-- `RefObject.__init__(ref, base_uri, dereferencer)` state: the joined ref,
the `dereferenced` flag and the `object` slot (None until resolved).  The
shared dereferencer lives in `World` below. -/
structure RefObject where
  ref : String
  dereferenced : Bool
  object : Option JSON

/-- `RefObject.__init__`: `self.ref = urlparse.urljoin(base_uri, ref)`,
`self.dereferenced = False`, `self.object = None`. -/
def RefObject.init (ref base_uri : String) : RefObject :=
  ⟨urljoin base_uri ref, false, none⟩

/-- The shared mutable surroundings of the proxies: the (default, shared)
dereferencer store, the log of remote fetch attempts, and a counter of
Dereferencer.dereference invocations. -/
structure World where
  deref : Dereferencer
  fetches : List String
  derefCalls : Nat

/-- `RefObject.dereference()`: call the shared dereferencer on `self.ref` and,
on success, fill `self.object` and set `self.dereferenced`.  When the call
raises, the proxy fields stay untouched (the assignments are never reached)
but the store may have grown and the fetch was still attempted. -/
def RefObject.derefCall (web : String → Option JSON) (r : RefObject) (w : World) :
    Except PyError RefObject × World :=
  let res := Dereferencer.dereference web w.deref r.ref
  let w2 : World := ⟨res.2.1, w.fetches ++ res.2.2, w.derefCalls + 1⟩
  match res.1 with
  | .ok v => (.ok ⟨r.ref, true, some v⟩, w2)
  | .error e => (.error e, w2)

/-- One observation through the `dereferencing` wrapper (repr, str, iter,
bool, getattr): dereference first if still unresolved, then hand
`refobj.object` to the wrapped operation.  The observation yields the
object the wrapped function receives. -/
def RefObject.observe (web : String → Option JSON) (r : RefObject) (w : World) :
    Except PyError (JSON × RefObject × World) :=
  if r.dereferenced then
    .ok ((r.object.getD .null), r, w)
  else
    match RefObject.derefCall web r w with
    | (.ok r2, w2) => .ok ((r2.object.getD .null), r2, w2)
    | (.error e, _) => .error e

/-- `n` further observations in sequence, each threading the proxy and world
returned by the previous one; fails as soon as one observation raises. -/
def observeIter (web : String → Option JSON) : Nat → JSON × RefObject × World →
    Except PyError (JSON × RefObject × World)
  | 0, s => .ok s
  | n + 1, s =>
    match RefObject.observe web s.2.1 s.2.2 with
    | .ok s2 => observeIter web n s2
    | .error e => .error e

/-! ## The loaders (src/jsonref.py lines 147-170) -/

/-- A document tree after loading: ordinary JSON shapes plus reference
proxies.  `refObjRaw` records the degenerate Python case of a `$ref` value
that is not a string: `urljoin("", v)` returns `v` unchanged because the
empty base is falsy, so construction does not raise and the bad value sits
in `self.ref`; no claim observes such a proxy. -/
inductive Loaded where
  | null
  | bool (b : Bool)
  | num (n : Int)
  | str (s : String)
  | arr (xs : List Loaded)
  | obj (kvs : List (String × Loaded))
  | refObj (r : RefObject)
  | refObjRaw (v : Loaded)

/-- Structural injection of a parsed JSON value into the loaded-tree type. -/
def JSON.toLoaded : JSON → Loaded
  | .null => .null
  | .bool b => .bool b
  | .num n => .num n
  | .str s => .str s
  | .arr xs => .arr (toLoadedList xs)
  | .obj kvs => .obj (toLoadedKVs kvs)
where
  toLoadedList : List JSON → List Loaded
    | [] => []
    | x :: xs => JSON.toLoaded x :: toLoadedList xs
  toLoadedKVs : List (String × JSON) → List (String × Loaded)
    | [] => []
    | (k, x) :: xs => (k, JSON.toLoaded x) :: toLoadedKVs xs

/-- `_as_ref_object(dct)`: if the mapping has a "$ref" key, replace it by
`RefObject(dct["$ref"])` (base_uri defaults to "", dereferencer to the shared
default instance); otherwise keep the mapping. -/
def as_ref_object (kvs : List (String × Loaded)) : Loaded :=
  match assocLookup kvs "$ref" with
  | some (.str s) => .refObj (RefObject.init s "")
  | some v => .refObjRaw v
  | none => .obj kvs

/-- `loads` / `load` with `object_hook=_as_ref_object`: the json parser calls
the hook once per completed mapping literal, bottom-up. -/
def loadsJSON : JSON → Loaded
  | .null => .null
  | .bool b => .bool b
  | .num n => .num n
  | .str s => .str s
  | .arr xs => .arr (loadsList xs)
  | .obj kvs => as_ref_object (loadsKVs kvs)
where
  loadsList : List JSON → List Loaded
    | [] => []
    | x :: xs => loadsJSON x :: loadsList xs
  loadsKVs : List (String × JSON) → List (String × Loaded)
    | [] => []
    | (k, x) :: xs => (k, loadsJSON x) :: loadsKVs xs

/-- `loadp(obj)`: try `RefObject(obj["$ref"])` first (TypeError / KeyError
fall through), then recurse into dicts and lists, and return scalars
unchanged.  The proxy is built from the raw `$ref` value, not a recursed
one. -/
def loadp : JSON → Loaded
  | .obj kvs =>
    (match assocLookup kvs "$ref" with
     | some (.str s) => .refObj (RefObject.init s "")
     | some v => .refObjRaw v.toLoaded
     | none => .obj (loadpKVs kvs))
  | .arr xs => .arr (loadpList xs)
  | .null => .null
  | .bool b => .bool b
  | .num n => .num n
  | .str s => .str s
where
  loadpList : List JSON → List Loaded
    | [] => []
    | x :: xs => loadp x :: loadpList xs
  loadpKVs : List (String × JSON) → List (String × Loaded)
    | [] => []
    | (k, x) :: xs => (k, loadp x) :: loadpKVs xs

/-- Discriminator used to refute the claim that every failing pointer step
raises the LookupError (claim C8). -/
def PyError.isLookup : PyError → Bool
  | .lookupError _ => true
  | _ => false

/-- The fetch oracle on which every request fails (requests.get raising, for
instance on the empty URI, where it raises MissingSchema). -/
def webNone : String → Option JSON := fun _ => none

/-! ## Helper lemmas -/

theorem assocLookup_assocSet_self {α : Type} (st : List (String × α)) (k : String)
    (v : α) : assocLookup (assocSet st k v) k = some v := by
  induction st with
  | nil => simp [assocSet, assocLookup]
  | cons kv rest ih =>
    rcases kv with ⟨k2, w⟩
    by_cases hk : k2 = k
    · simp [assocSet, assocLookup, hk]
    · simp [assocSet, assocLookup, hk, ih]

theorem assocLookup_assocSet_ne {α : Type} (st : List (String × α)) (k k2 : String)
    (v : α) (h : k2 ≠ k) :
    assocLookup (assocSet st k2 v) k = assocLookup st k := by
  induction st with
  | nil => simp [assocSet, assocLookup, h]
  | cons kv rest ih =>
    rcases kv with ⟨k3, w⟩
    by_cases hk : k3 = k2
    · subst hk
      simp [assocSet, assocLookup, h]
    · by_cases hk3 : k3 = k
      · subst hk3
        simp [assocSet, assocLookup, hk]
      · simp [assocSet, assocLookup, hk, hk3, ih]

theorem observe_resolved (web : String → Option JSON) (r : RefObject) (w : World)
    (v : JSON) (h1 : r.dereferenced = true) (h2 : r.object = some v) :
    RefObject.observe web r w = .ok (v, r, w) := by
  simp [RefObject.observe, h1, h2]

theorem observeIter_resolved (web : String → Option JSON) (v : JSON) (r : RefObject)
    (w : World) (h1 : r.dereferenced = true) (h2 : r.object = some v) :
    ∀ n, observeIter web n (v, r, w) = .ok (v, r, w) := by
  intro n
  induction n with
  | zero => rfl
  | succ n ih =>
    have ho := observe_resolved web r w v h1 h2
    simp only [observeIter, ho]
    exact ih

/-! ## The claims -/

/-- C1: the claim says resolve_pointer indexes arrays by parsing the token as
a base-10 integer.  The source instead tests `part in document` (element
membership for a list) and never converts the token: at document
{"a": [1, 2, 3]} and pointer "/a/0" it raises
a LookupError whose message quotes the pointer /a/0 instead of returning the
element 1 at index 0. -/
theorem c1_array_token_never_parsed :
    resolve_pointer (.obj [("a", .arr [.num 1, .num 2, .num 3])]) "/a/0"
      = .error (.lookupError ("Unresolvable JSON pointer: " ++ sq ++ "/a/0" ++ sq)) := rfl

/-- C2: a RefObject is constructed unresolved with an empty object slot; a
first successful observation invokes the Dereferencer exactly once, stores
the result, and any number of further observations return the stored value
unchanged without invoking the Dereferencer again (proxy and world reach a
fixpoint, so the call counter stays at one more than before). -/
theorem c2_lazy_memoized_proxy (web : String → Option JSON) (raw base : String)
    (w : World) (v : JSON) (r1 : RefObject) (w1 : World)
    (h : RefObject.observe web (RefObject.init raw base) w = .ok (v, r1, w1)) :
    (RefObject.init raw base).dereferenced = false
    ∧ (RefObject.init raw base).object = none
    ∧ w1.derefCalls = w.derefCalls + 1
    ∧ r1.dereferenced = true
    ∧ r1.object = some v
    ∧ ∀ n, observeIter web n (v, r1, w1) = .ok (v, r1, w1) := by
  refine ⟨rfl, rfl, ?_⟩
  rcases hd : Dereferencer.dereference web w.deref (urljoin base raw) with ⟨res, d2, fs⟩
  cases res with
  | error e =>
    have hred : RefObject.observe web (RefObject.init raw base) w = .error e := by
      unfold RefObject.observe RefObject.derefCall RefObject.init
      simp [hd]
    rw [hred] at h
    simp at h
  | ok val =>
    have hred : RefObject.observe web (RefObject.init raw base) w
        = .ok (val, ⟨urljoin base raw, true, some val⟩,
            ⟨d2, w.fetches ++ fs, w.derefCalls + 1⟩) := by
      unfold RefObject.observe RefObject.derefCall RefObject.init
      simp [hd]
    rw [hred] at h
    simp only [Except.ok.injEq, Prod.mk.injEq] at h
    obtain ⟨hv, hr, hw⟩ := h
    subst hv hr hw
    refine ⟨rfl, rfl, rfl, ?_⟩
    exact observeIter_resolved web val ⟨urljoin base raw, true, some val⟩
      ⟨d2, w.fetches ++ fs, w.derefCalls + 1⟩ rfl rfl

/-- Fetch oracle answering every URI with the number 7, for the C2 witness. -/
def webNum7 : String → Option JSON := fun _ => some (.num 7)

/-- C2 witness at ref "a", base "", the empty world: the counter reaches 1
and two further observations are a fixpoint. -/
theorem c2_lazy_memoized_proxy_witness :
    (⟨⟨[("a", JSON.num 7)]⟩, ["a"], 1⟩ : World).derefCalls
        = (⟨⟨[]⟩, [], 0⟩ : World).derefCalls + 1
    ∧ observeIter webNum7 2
        (.num 7, ⟨"a", true, some (.num 7)⟩, ⟨⟨[("a", JSON.num 7)]⟩, ["a"], 1⟩)
      = .ok (.num 7, ⟨"a", true, some (.num 7)⟩, ⟨⟨[("a", JSON.num 7)]⟩, ["a"], 1⟩) := by
  have h := c2_lazy_memoized_proxy webNum7 "a" "" ⟨⟨[]⟩, [], 0⟩ (.num 7)
    ⟨"a", true, some (.num 7)⟩ ⟨⟨[("a", JSON.num 7)]⟩, ["a"], 1⟩ rfl
  exact ⟨h.2.2.1, h.2.2.2.2.2 2⟩

/-- C3: loading the claimed text gives a proxy whose joined ref is "#/y" and
whose base uri defaults to the empty string; observing it looks the empty
base up in the empty store of the default dereferencer, misses, attempts a remote
fetch of the empty URI (which raises) and never yields 7. -/
theorem c3_same_document_ref_unresolvable :
    loadsJSON (.obj [("x", .obj [("$ref", .str "#/y")]), ("y", .num 7)])
      = .obj [("x", .refObj ⟨"#/y", false, none⟩), ("y", .num 7)]
    ∧ RefObject.observe webNone ⟨"#/y", false, none⟩ ⟨⟨[]⟩, [], 0⟩
      = .error (.fetchError "")
    ∧ RefObject.derefCall webNone ⟨"#/y", false, none⟩ ⟨⟨[]⟩, [], 0⟩
      = (.error (.fetchError ""), ⟨⟨[]⟩, [""], 1⟩) :=
  ⟨rfl, rfl, rfl⟩

/-- C4: dereference of a base URI already present in the store returns the
cached document with the state unchanged and no fetch; any dereference
preserves every existing store entry (the store is append-only); and two
dereferences of URIs sharing one absent base URI trigger exactly one fetch,
the second hitting the cache. -/
theorem c4_append_only_store :
    (∀ (web : String → Option JSON) (d : Dereferencer) (full : String) (doc : JSON),
        uridictGet d.store (urldefrag full).1 = some doc →
        Dereferencer.dereference web d full
          = (resolve_pointer doc (urldefrag full).2, d, []))
    ∧ (∀ (web : String → Option JSON) (d : Dereferencer) (full k : String) (v : JSON),
        assocLookup d.store k = some v →
        assocLookup (Dereferencer.dereference web d full).2.1.store k = some v)
    ∧ (∀ (web : String → Option JSON) (d : Dereferencer) (u1 u2 : String) (doc : JSON),
        (urldefrag u1).1 = (urldefrag u2).1 →
        uridictGet d.store (urldefrag u1).1 = none →
        web (urldefrag u1).1 = some doc →
        (Dereferencer.dereference web d u1).2.2 = [(urldefrag u1).1]
        ∧ (Dereferencer.dereference web (Dereferencer.dereference web d u1).2.1 u2).2.2
            = []) := by
  refine ⟨?_, ?_, ?_⟩
  · intro web d full doc h
    simp [Dereferencer.dereference, h]
  · intro web d full k v h
    cases hg : uridictGet d.store (urldefrag full).1 with
    | some doc =>
      simp [Dereferencer.dereference, hg]
      exact h
    | none =>
      cases hw : web (urldefrag full).1 with
      | none =>
        simp [Dereferencer.dereference, Dereferencer.remote, hg, hw]
        exact h
      | some doc =>
        simp [Dereferencer.dereference, Dereferencer.remote, hg, hw, uridictSet]
        have hne : normalize (urldefrag full).1 ≠ k := by
          intro he
          unfold uridictGet at hg
          rw [he, h] at hg
          cases hg
        rw [assocLookup_assocSet_ne d.store k (normalize (urldefrag full).1) doc hne]
        exact h
  · intro web d u1 u2 doc he hg hw
    constructor
    · simp [Dereferencer.dereference, Dereferencer.remote, hg, hw]
    · have hstate : (Dereferencer.dereference web d u1).2.1
          = ⟨uridictSet d.store (urldefrag u1).1 doc⟩ := by
        simp [Dereferencer.dereference, Dereferencer.remote, hg, hw]
      rw [hstate]
      have hget : uridictGet (uridictSet d.store (urldefrag u1).1 doc) (urldefrag u2).1
          = some doc := by
        unfold uridictGet uridictSet
        rw [← he]
        exact assocLookup_assocSet_self _ _ _
      simp [Dereferencer.dereference, hget]

/-- Fetch oracle knowing one document at "http://x/doc", for the C4 witness. -/
def webDoc : String → Option JSON :=
  fun u => if u = "http://x/doc" then some (.obj [("a", .num 1), ("b", .num 2)]) else none

/-- C4 witness: a cached base is served without fetch and without state
change; a fetched entry does not disturb a pre-existing key; two fragments
of one base cost exactly one fetch. -/
theorem c4_append_only_store_witness :
    (Dereferencer.dereference webDoc (⟨[]⟩ : Dereferencer) "http://x/doc#/a").2.2
        = ["http://x/doc"]
    ∧ (Dereferencer.dereference webDoc
        (Dereferencer.dereference webDoc (⟨[]⟩ : Dereferencer) "http://x/doc#/a").2.1
        "http://x/doc#/b").2.2 = []
    ∧ Dereferencer.dereference webNone
        (⟨[("mem://x", JSON.obj [("a", JSON.num 42)])]⟩ : Dereferencer) "mem://x#/a"
        = (.ok (.num 42), ⟨[("mem://x", JSON.obj [("a", JSON.num 42)])]⟩, [])
    ∧ assocLookup (Dereferencer.dereference webDoc (⟨[("k", JSON.null)]⟩ : Dereferencer)
        "http://x/doc#/a").2.1.store "k" = some JSON.null := by
  have h1 := c4_append_only_store.1 webNone
    ⟨[("mem://x", JSON.obj [("a", JSON.num 42)])]⟩ "mem://x#/a"
    (JSON.obj [("a", JSON.num 42)]) rfl
  have h2 := c4_append_only_store.2.1 webDoc ⟨[("k", JSON.null)]⟩ "http://x/doc#/a"
    "k" JSON.null rfl
  have h3 := c4_append_only_store.2.2 webDoc ⟨[]⟩ "http://x/doc#/a" "http://x/doc#/b"
    (JSON.obj [("a", JSON.num 1), ("b", JSON.num 2)]) rfl rfl rfl
  exact ⟨h3.1, h3.2, by rw [h1]; rfl, h2⟩

/-- C5 counterexample: the seed pairs handed to Dereferencer/_URIDict
construction are stored raw (dict.update on the inner dict bypasses
normalization).  The key "HTTP://x.com" is present in the store and the base
part of "HTTP://x.com#" normalizes identically to it, yet dereferencing
misses the cache and performs a fetch — the claim promises the cached
document and no fetch. -/
theorem c5_seeded_key_counterexample :
    normalize "HTTP://x.com" = "http://x.com"
    ∧ (urldefrag "HTTP://x.com#").1 = "http://x.com"
    ∧ normalize "http://x.com" = "http://x.com"
    ∧ (Dereferencer.dereference webNone
        (Dereferencer.init [("HTTP://x.com", .num 1)]) "HTTP://x.com#").2.2
      = ["http://x.com"]
    ∧ (["http://x.com"] : List String) ≠ [] :=
  ⟨rfl, rfl, rfl, rfl, by decide⟩

/-- C5 (amended): getitem, setitem and the membership test of the store
normalize their key (URIs with equal normal forms are interchangeable, and
insertion happens under the normalized key); dereferencing a URI whose base
part NORMALIZES to a key present verbatim in the inner dict — as every key
inserted through setitem is — returns the cached document with no fetch.
Keys seeded through the constructor are stored raw and only hit when already
normal.  The pair "http://x.com?" / "http://x.com" shows two distinct URIs
with one normal form. -/
theorem c5_normalization_amended :
    (∀ (st : List (String × JSON)) (u1 u2 : String), normalize u1 = normalize u2 →
        uridictGet st u1 = uridictGet st u2)
    ∧ (∀ (st : List (String × JSON)) (u : String) (v : JSON),
        uridictSet st u v = assocSet st (normalize u) v)
    ∧ (∀ (web : String → Option JSON) (d : Dereferencer) (full : String) (doc : JSON),
        assocLookup d.store (normalize (urldefrag full).1) = some doc →
        Dereferencer.dereference web d full
          = (resolve_pointer doc (urldefrag full).2, d, []))
    ∧ normalize "http://x.com?" = "http://x.com"
    ∧ "http://x.com?" ≠ "http://x.com" := by
  refine ⟨?_, ?_, ?_, rfl, by decide⟩
  · intro st u1 u2 h
    unfold uridictGet
    rw [h]
  · intro st u v
    rfl
  · intro web d full doc h
    have hg : uridictGet d.store (urldefrag full).1 = some doc := h
    simp [Dereferencer.dereference, hg]

/-- C5 witness: normalize-equal URIs give one lookup result, and a base URI
whose normal form is a stored key is served from the cache. -/
theorem c5_normalization_amended_witness :
    uridictGet [("a", JSON.num 1)] "HTTP://y" = uridictGet [("a", JSON.num 1)] "http://y"
    ∧ Dereferencer.dereference webNone (⟨[("http://x.com", JSON.num 3)]⟩ : Dereferencer)
        "HTTP://x.com#"
      = (.ok (.num 3), ⟨[("http://x.com", JSON.num 3)]⟩, []) := by
  have h1 := c5_normalization_amended.1 [("a", JSON.num 1)] "HTTP://y" "http://y" rfl
  have h2 := c5_normalization_amended.2.2.1 webNone ⟨[("http://x.com", JSON.num 3)]⟩
    "HTTP://x.com#" (JSON.num 3) rfl
  exact ⟨h1, by rw [h2]; rfl⟩

/-- C6 counterexample: the source strips ALL leading slashes (lstrip) and does
so BEFORE percent-decoding, while the claim strips a single leading slash
after decoding: the pointers "//a" and "%2Fa" tokenize differently. -/
theorem c6_tokenization_counterexample :
    pointerTokens "//a" = ["a"] ∧ specTokenize "//a" = ["", "a"]
    ∧ pointerTokens "%2Fa" = ["", "a"] ∧ specTokenize "%2Fa" = ["a"]
    ∧ (["a"] : List String) ≠ ["", "a"] :=
  ⟨by decide, by decide, by decide, by decide, by decide⟩

/-- C6 (amended): resolve_pointer tokenizes by stripping every leading "/",
then percent-decoding, then splitting on "/" (so a decoded %2F acts as a
separator); the empty pointer yields zero tokens and resolves to the whole
document unchanged. -/
theorem c6_tokenization_amended :
    (∀ pointer : String, pointerTokens pointer
        = if pointer = "" then [] else splitOnChar (unquote (lstripSlash pointer)) '/')
    ∧ (∀ doc : JSON, resolve_pointer doc "" = .ok doc)
    ∧ resolve_pointer (.obj [("a", .num 5)]) "//a" = .ok (.num 5) :=
  ⟨fun _ => rfl, fun _ => rfl, rfl⟩

/-- C7: a key containing a literal "/" is addressable through the escaped
segment "c~1d" and a key containing a literal "~" through "e~0f"; the
replacement order ~1 before ~0 keeps "~01" from collapsing to "/". -/
theorem c7_escape_roundtrip :
    (∀ (kvs : List (String × JSON)) (v : JSON), assocLookup kvs "c/d" = some v →
        resolve_pointer (.obj kvs) "/c~1d" = .ok v)
    ∧ (∀ (kvs : List (String × JSON)) (v : JSON), assocLookup kvs "e~f" = some v →
        resolve_pointer (.obj kvs) "/e~0f" = .ok v)
    ∧ unescapeToken "~01" = "~1" := by
  refine ⟨?_, ?_, by decide⟩
  · intro kvs v h
    show resolveTokens "/c~1d" (.obj kvs) (pointerTokens "/c~1d") = .ok v
    have ht : pointerTokens "/c~1d" = ["c~1d"] := by decide
    have hu : unescapeToken "c~1d" = "c/d" := by decide
    rw [ht]
    simp [resolveTokens, pointerStep, hu, pyContains, pyIndex, h]
  · intro kvs v h
    show resolveTokens "/e~0f" (.obj kvs) (pointerTokens "/e~0f") = .ok v
    have ht : pointerTokens "/e~0f" = ["e~0f"] := by decide
    have hu : unescapeToken "e~0f" = "e~f" := by decide
    rw [ht]
    simp [resolveTokens, pointerStep, hu, pyContains, pyIndex, h]

/-- C7 witness at the two concrete documents of the claim. -/
theorem c7_escape_roundtrip_witness :
    resolve_pointer (.obj [("c/d", .num 1)]) "/c~1d" = .ok (.num 1)
    ∧ resolve_pointer (.obj [("e~f", .num 2)]) "/e~0f" = .ok (.num 2) :=
  ⟨c7_escape_roundtrip.1 [("c/d", .num 1)] (.num 1) rfl,
   c7_escape_roundtrip.2.1 [("e~f", .num 2)] (.num 2) rfl⟩

/-- C8 counterexample: a pointer step into a scalar raises TypeError (the
membership test is applied to a non-iterable), not the LookupError that
models the ResolutionError of the claim. -/
theorem c8_scalar_step_counterexample :
    resolve_pointer (.num 5) "/a"
      = .error (.typeError "argument of type int is not iterable")
    ∧ PyError.isLookup (.typeError "argument of type int is not iterable") = false :=
  ⟨rfl, rfl⟩

/-- C8 (amended): a missing mapping key, or an array none of whose elements
equals the token string (tokens are never parsed as indices), raises a
LookupError whose message carries the full offending pointer but not the
failing segment separately; a step into a number raises TypeError instead;
and the first failing step aborts the walk, the error propagating without
any internal retry. -/
theorem c8_failure_modes_amended :
    (∀ (pointer t : String) (kvs : List (String × JSON)),
        (assocLookup kvs (unescapeToken t)).isSome = false →
        pointerStep pointer (.obj kvs) t
          = .error (.lookupError (unresolvableMsg pointer)))
    ∧ (∀ (pointer t : String) (xs : List JSON),
        (xs.any fun v => match v with | JSON.str s => s = unescapeToken t | _ => false)
            = false →
        pointerStep pointer (.arr xs) t
          = .error (.lookupError (unresolvableMsg pointer)))
    ∧ (∀ (pointer t : String) (n : Int), pointerStep pointer (.num n) t
        = .error (.typeError "argument of type int is not iterable"))
    ∧ (∀ (pointer t : String) (doc : JSON) (rest : List String) (e : PyError),
        pointerStep pointer doc t = .error e →
        resolveTokens pointer doc (t :: rest) = .error e) := by
  refine ⟨?_, ?_, ?_, ?_⟩
  · intro pointer t kvs h
    simp [pointerStep, pyContains, h]
  · intro pointer t xs h
    simp only [pointerStep, pyContains]
    rw [h]
  · intro pointer t n
    rfl
  · intro pointer t doc rest e h
    simp [resolveTokens, h]

/-- C8 witness: a missing key and a non-matching array token both produce the
LookupError with the pointer in the message, and the error ends the walk. -/
theorem c8_failure_modes_amended_witness :
    pointerStep "/zzz" (.obj [("a", .num 1)]) "zzz"
      = .error (.lookupError (unresolvableMsg "/zzz"))
    ∧ pointerStep "/a/0" (.arr [.num 1, .num 2, .num 3]) "0"
      = .error (.lookupError (unresolvableMsg "/a/0"))
    ∧ resolveTokens "/a" (.num 5) ["a"]
      = .error (.typeError "argument of type int is not iterable") := by
  have h1 := c8_failure_modes_amended.1 "/zzz" "zzz" [("a", JSON.num 1)] rfl
  have h2 := c8_failure_modes_amended.2.1 "/a/0" "0" [JSON.num 1, JSON.num 2, JSON.num 3] rfl
  have h3 := c8_failure_modes_amended.2.2.2 "/a" "a" (.num 5) []
    (.typeError "argument of type int is not iterable")
    (c8_failure_modes_amended.2.2.1 "/a" "a" 5)
  exact ⟨h1, h2, h3⟩

/-- C9 counterexample: the loaders build every proxy with the default empty
base uri, so a relative $ref found in a document whose base uri is
"http://example.com/dir/doc.json" is stored as "other.json", not as the
join "http://example.com/dir/other.json" the claim requires. -/
theorem c9_loader_base_uri_counterexample :
    loadp (.obj [("$ref", .str "other.json")]) = .refObj ⟨"other.json", false, none⟩
    ∧ as_ref_object [("$ref", .str "other.json")] = .refObj ⟨"other.json", false, none⟩
    ∧ urljoin "http://example.com/dir/doc.json" "other.json"
        = "http://example.com/dir/other.json"
    ∧ "other.json" ≠ "http://example.com/dir/other.json" :=
  ⟨rfl, rfl, rfl, by decide⟩

/-- C9 (amended): RefObject construction stores urljoin(base_uri, ref), and
joining against the empty base returns the ref unchanged; but the loaders
(object hook and loadp) never pass a base uri, so every loader-built proxy
stores the raw $ref string itself and relative references are NOT resolved
against the location of the containing document. -/
theorem c9_ref_join_amended :
    (∀ ref base : String, (RefObject.init ref base).ref = urljoin base ref)
    ∧ (∀ ref : String, urljoin "" ref = ref)
    ∧ (∀ (kvs : List (String × Loaded)) (s : String),
        assocLookup kvs "$ref" = some (Loaded.str s) →
        as_ref_object kvs = .refObj ⟨s, false, none⟩)
    ∧ (∀ (kvs : List (String × JSON)) (s : String),
        assocLookup kvs "$ref" = some (JSON.str s) →
        loadp (.obj kvs) = .refObj ⟨s, false, none⟩) := by
  refine ⟨fun _ _ => rfl, fun _ => rfl, ?_, ?_⟩
  · intro kvs s h
    unfold as_ref_object
    rw [h]
    rfl
  · intro kvs s h
    unfold loadp
    rw [h]
    rfl

/-- C9 witness: a loader-built proxy keeps the relative ref verbatim. -/
theorem c9_ref_join_amended_witness :
    as_ref_object [("$ref", Loaded.str "b.json")] = .refObj ⟨"b.json", false, none⟩
    ∧ loadp (.obj [("$ref", JSON.str "b.json")]) = .refObj ⟨"b.json", false, none⟩ :=
  ⟨c9_ref_join_amended.2.2.1 [("$ref", Loaded.str "b.json")] "b.json" rfl,
   c9_ref_join_amended.2.2.2 [("$ref", JSON.str "b.json")] "b.json" rfl⟩

/-- C10: any mapping holding a "$ref" key — with or without sibling keys — is
replaced wholesale by a single proxy built only from the $ref value, both by
the object hook of load/loads and by loadp; no sibling key survives in the
result. -/
theorem c10_sibling_keys_discarded :
    (∀ (kvs : List (String × Loaded)) (s : String),
        assocLookup kvs "$ref" = some (Loaded.str s) →
        as_ref_object kvs = Loaded.refObj (RefObject.init s ""))
    ∧ (∀ (kvs : List (String × JSON)) (s : String),
        assocLookup kvs "$ref" = some (JSON.str s) →
        loadp (.obj kvs) = Loaded.refObj (RefObject.init s ""))
    ∧ loadsJSON (.obj [("sib1", .num 1), ("$ref", .str "#/t"), ("sib2", .bool true)])
        = .refObj ⟨"#/t", false, none⟩ := by
  refine ⟨?_, ?_, rfl⟩
  · intro kvs s h
    unfold as_ref_object
    rw [h]
  · intro kvs s h
    unfold loadp
    rw [h]

/-- C10 witness: sibling keys around $ref are dropped by both loaders. -/
theorem c10_sibling_keys_discarded_witness :
    as_ref_object [("a", Loaded.num 1), ("$ref", Loaded.str "u"), ("b", Loaded.num 2)]
      = Loaded.refObj (RefObject.init "u" "")
    ∧ loadp (.obj [("a", JSON.num 1), ("$ref", JSON.str "u"), ("b", JSON.num 2)])
      = Loaded.refObj (RefObject.init "u" "") :=
  ⟨c10_sibling_keys_discarded.1
      [("a", Loaded.num 1), ("$ref", Loaded.str "u"), ("b", Loaded.num 2)] "u" rfl,
   c10_sibling_keys_discarded.2.1
      [("a", JSON.num 1), ("$ref", JSON.str "u"), ("b", JSON.num 2)] "u" rfl⟩

end Jsonref
